import Mathlib

/-
  Verification development for the geographic SEO boundaries analyzer
  (src/geographic_seo_analyzer.py).  The Python source is shallowly
  embedded below: pure computations become Lean functions, the two
  side-effecting collaborators (the Places search and the database) are
  modelled by explicit inputs (an optional HTTP response) and an explicit
  trace of attempted inserts.  Exact rational arithmetic stands in for
  Python floats; the trigonometric distance computation is embedded over
  the reals.
-/

namespace GeoSEO

/-- One entity of `data['results']` as consumed by the analyzer: its
display name, optional rating and optional review count
(`place.get('rating', 0)` / `place.get('user_ratings_total', 0)`). -/
structure Place where
  name : String
  rating : Option ℚ
  user_ratings_total : Option ℕ
deriving DecidableEq

/-- Python `str.lower()` applied characterwise to the underlying
character list (ASCII-faithful). -/
def aMinusculas (s : String) : String :=
  ⟨s.data.map Char.toLower⟩

/-- Python `str.strip()`: drop whitespace from both ends of the
character list. -/
def recortar (s : String) : String :=
  ⟨((s.data.dropWhile Char.isWhitespace).reverse.dropWhile Char.isWhitespace).reverse⟩

/-- Embeds `_es_tu_negocio` (lines 138-143): the lowercased display name
contains some configured business term (each term stripped) as a
substring.  `business_terms` stands for the already lowercased and
comma-split `BUSINESS_KEYWORDS` configuration value. -/
def es_tu_negocio (business_terms : List String) (place : Place) : Bool :=
  business_terms.any (fun term => decide ((recortar term).data <:+: (aMinusculas place.name).data))

/-- Embeds the scanning loop of `analizar_ciudad` (lines 177-181): walk
the places in returned order carrying the 0-based index `idx`, stop at
the first match with 1-based position `idx + 1`. -/
def busca_desde (business_terms : List String) : List Place → ℕ → Option ℕ
  | [], _ => none
  | p :: ps, idx =>
      if es_tu_negocio business_terms p then some (idx + 1)
      else busca_desde business_terms ps (idx + 1)

/-- The whole position scan: only the first 20 places are inspected
(`places[:20]`), the index starts at 0. -/
def buscar_tu_posicion (business_terms : List String) (places : List Place) : Option ℕ :=
  busca_desde business_terms (places.take 20) 0

/-- Embeds line 184: `[p for p in places if not self._es_tu_negocio(p)]`. -/
def competidores_de (business_terms : List String) (places : List Place) : List Place :=
  places.filter (fun p => ! es_tu_negocio business_terms p)

/-- Python `round` to the nearest integer: round half to even. -/
def redondeoEntero (q : ℚ) : ℤ :=
  if q - ⌊q⌋ < 1/2 then ⌊q⌋
  else if 1/2 < q - ⌊q⌋ then ⌊q⌋ + 1
  else if ⌊q⌋ % 2 = 0 then ⌊q⌋ else ⌊q⌋ + 1

/-- Python `round(q, 2)` on an exact rational. -/
def round2Q (q : ℚ) : ℚ :=
  ((redondeoEntero (q * 100) : ℤ) : ℚ) / 100

/-- Python `int(q)`: truncation toward zero. -/
def pyInt (q : ℚ) : ℤ :=
  if 0 ≤ q then ⌊q⌋ else -⌊-q⌋

/-- Python `round` to the nearest integer over the reals (round half to
even), used for the value produced by the haversine computation. -/
noncomputable def redondeoEnteroR (x : ℝ) : ℤ :=
  if x - ⌊x⌋ < 1/2 then ⌊x⌋
  else if 1/2 < x - ⌊x⌋ then ⌊x⌋ + 1
  else if ⌊x⌋ % 2 = 0 then ⌊x⌋ else ⌊x⌋ + 1

/-- Python `round(x, 2)` for the distance stored in the result record. -/
noncomputable def round2R (x : ℝ) : ℚ :=
  ((redondeoEnteroR (x * 100) : ℤ) : ℚ) / 100

/-- Python `math.radians`. -/
noncomputable def radians (x : ℝ) : ℝ :=
  x * (Real.pi / 180)

/-- C `atan2` as exposed by `math.atan2`. -/
noncomputable def atan2 (y x : ℝ) : ℝ :=
  if 0 < x then Real.arctan (y / x)
  else if x < 0 ∧ 0 ≤ y then Real.arctan (y / x) + Real.pi
  else if x < 0 ∧ y < 0 then Real.arctan (y / x) - Real.pi
  else if x = 0 ∧ 0 < y then Real.pi / 2
  else if x = 0 ∧ y < 0 then -(Real.pi / 2)
  else 0

/-- The intermediate `a` of `_calcular_distancia` (lines 129-131). -/
noncomputable def haversine_a (lat1 lng1 lat2 lng2 : ℝ) : ℝ :=
  Real.sin (radians (lat2 - lat1) / 2) * Real.sin (radians (lat2 - lat1) / 2) +
    Real.cos (radians lat1) * Real.cos (radians lat2) *
      (Real.sin (radians (lng2 - lng1) / 2) * Real.sin (radians (lng2 - lng1) / 2))

/-- Embeds `_calcular_distancia` (lines 121-136).  The Python guard
`if not all([lat1, lng1, lat2, lng2]): return 0` fires exactly when some
argument is zero (zero is the only falsy float value). -/
noncomputable def calcular_distancia (lat1 lng1 lat2 lng2 : ℝ) : ℝ :=
  if lat1 = 0 ∨ lng1 = 0 ∨ lat2 = 0 ∨ lng2 = 0 then 0
  else
    6371 *
      (2 * atan2 (Real.sqrt (haversine_a lat1 lng1 lat2 lng2))
        (Real.sqrt (1 - haversine_a lat1 lng1 lat2 lng2)))

/-- A configured test city (entries of `ciudades_test`). -/
structure Ciudad where
  name : String
  lat : ℚ
  lng : ℚ
  zip : String
deriving DecidableEq

/-- The relevant parts of the collaborator response: HTTP status code,
the JSON `status` field and the `results` list.  A transport failure
(requests raising) is modelled by `none` at the call site. -/
structure HttpResponse where
  status_code : ℕ
  status : String
  results : List Place
deriving DecidableEq

/-- The `resultado` dictionary built in `analizar_ciudad` (lines 188-201),
the unit of persistence and aggregation. -/
structure Resultado where
  ciudad : String
  zip : String
  tier : String
  keyword : String
  aparece : Bool
  posicion : Option ℕ
  distancia_km : ℚ
  lat : ℚ
  lng : ℚ
  total_competidores : ℕ
  rating_promedio : ℚ
  reviews_promedio : ℤ
deriving DecidableEq

/-- Outcome of the database insert attempt in `_guardar_resultado`. -/
inductive EstadoDB where
  | committed : EstadoDB
  | rolledBack : EstadoDB
deriving DecidableEq

/-- Embeds `_guardar_resultado` (lines 220-247): one insert is attempted
per call (the second component is the trace of attempted inserts); a
database failure (`db_ok = false`) is caught and rolled back inside the
function, so it never propagates to the caller. -/
def guardar_resultado (db_ok : Bool) (resultado : Resultado) : EstadoDB × List Resultado :=
  (if db_ok then EstadoDB.committed else EstadoDB.rolledBack, [resultado])

/-- Embeds `analizar_ciudad` (lines 145-218).  A `none` response models
requests raising inside the try block; a non-200 code or a non-OK body
status falls through to `return None` with no insert attempted.  On the
success path the result record is built, saved once and returned, no
matter whether the save commits or rolls back. -/
noncomputable def analizar_ciudad (business_terms : List String) (base_lat base_lng : ℚ)
    (ciudad : Ciudad) (keyword tier : String) (resp : Option HttpResponse) (db_ok : Bool) :
    Option Resultado × List Resultado :=
  match resp with
  | none => (none, [])
  | some h =>
    if h.status_code = 200 then
      if h.status = ("OK") then
        let places := h.results
        let distancia :=
          calcular_distancia (base_lat : ℝ) (base_lng : ℝ) (ciudad.lat : ℝ) (ciudad.lng : ℝ)
        let tu_posicion := buscar_tu_posicion business_terms places
        let competidores := competidores_de business_terms places
        let rating_promedio : ℚ :=
          if competidores = [] then 0
          else (competidores.map (fun p => p.rating.getD 0)).sum / (competidores.length : ℚ)
        let reviews_promedio : ℚ :=
          if competidores = [] then 0
          else (competidores.map (fun p => ((p.user_ratings_total.getD 0 : ℕ) : ℚ))).sum /
            (competidores.length : ℚ)
        let resultado : Resultado :=
          { ciudad := ciudad.name
            zip := ciudad.zip
            tier := tier
            keyword := keyword
            aparece := tu_posicion.isSome
            posicion := tu_posicion
            distancia_km := round2R distancia
            lat := ciudad.lat
            lng := ciudad.lng
            total_competidores := places.length
            rating_promedio := round2Q rating_promedio
            reviews_promedio := pyInt reviews_promedio }
        (some resultado, (guardar_resultado db_ok resultado).2)
      else (none, [])
    else (none, [])

/-- Embeds line 286: the results where the business appears. -/
def apariciones (resultados : List Resultado) : List Resultado :=
  resultados.filter (fun r => r.aparece)

/-- The three overall dominance figures of `_generar_mapa_dominio`
(lines 289-291). -/
structure MapaDominio where
  distancia_max : ℚ
  distancia_min : ℚ
  posicion_promedio : ℚ
deriving DecidableEq

/-- Embeds the overall part of `_generar_mapa_dominio` (lines 286-297):
with no appearance at all the function reports the no-dominance state
(`none` here); otherwise max and min of the distances and the mean of
the positions over the appearing results. -/
def generar_mapa_dominio (resultados : List Resultado) : Option MapaDominio :=
  if apariciones resultados = [] then none
  else
    some
      { distancia_max := (((apariciones resultados).map (fun r => r.distancia_km)).max?).getD 0
        distancia_min := (((apariciones resultados).map (fun r => r.distancia_km)).min?).getD 0
        posicion_promedio :=
          ((apariciones resultados).map (fun r => ((r.posicion.getD 0 : ℕ) : ℚ))).sum /
            ((apariciones resultados).length : ℚ) }

/-- Embeds line 328: the results where the business does not appear. -/
def no_apariciones (resultados : List Resultado) : List Resultado :=
  resultados.filter (fun r => ! r.aparece)

/-- The per-city dictionary built at lines 333-339. -/
structure Oportunidad where
  distancia : ℚ
  tier : String
  competidores : ℕ
  rating_competidores : ℚ
  reviews_competidores : ℤ
deriving DecidableEq

/-- The value stored for one city (lines 333-339), taken from a single
representative result record. -/
def mkOportunidad (r : Resultado) : Oportunidad :=
  { distancia := r.distancia_km
    tier := r.tier
    competidores := r.total_competidores
    rating_competidores := r.rating_promedio
    reviews_competidores := r.reviews_promedio }

/-- Embeds the dictionary build of lines 331-339.  Python iterates
`set(r['ciudad'] for r in no_apariciones)` in an unspecified hash-based
order; `orden_set` is that enumeration of the distinct city names, a
parameter of the model.  For each name the representative record is
`[r for r in no_apariciones if r['ciudad'] == ciudad][0]`, the first
match in input order, here `List.find?`. -/
def ciudades_oportunidad (orden_set : List String) (resultados : List Resultado) :
    List (String × Oportunidad) :=
  orden_set.filterMap (fun c =>
    ((no_apariciones resultados).find? (fun r => r.ciudad == c)).map
      (fun r => (c, mkOportunidad r)))

/-- Stable insertion used to model Python `sorted` with the distance
key: the new element goes in front of the first position whose key is
not smaller, so earlier elements win ties. -/
def insertar (x : String × Oportunidad) :
    List (String × Oportunidad) → List (String × Oportunidad)
  | [] => [x]
  | y :: ys => if y.2.distancia < x.2.distancia then y :: insertar x ys else x :: y :: ys

/-- Python `sorted(ciudades_oportunidad.items(), key=distancia)`
(line 341) as a stable sort: a stable sort is a unique function of the
input sequence, so insertion sort is an exact model of it. -/
def ordenar : List (String × Oportunidad) → List (String × Oportunidad)
  | [] => []
  | x :: xs => insertar x (ordenar xs)

/-- The sorted opportunity list of line 341. -/
def ciudades_ordenadas (orden_set : List String) (resultados : List Resultado) :
    List (String × Oportunidad) :=
  ordenar (ciudades_oportunidad orden_set resultados)

/-- The reported opportunities, truncated to the top 10 (line 346). -/
def recomendaciones (orden_set : List String) (resultados : List Resultado) :
    List (String × Oportunidad) :=
  (ciudades_ordenadas orden_set resultados).take 10

/-- The difficulty heuristic of line 347. -/
def dificultad (reviews : ℤ) : String :=
  if reviews < 100 then ("EASY") else if reviews < 200 then ("MEDIUM") else ("HARD")

/-- Each reported entry together with its difficulty label
(lines 346-354). -/
def informe_expansion (orden_set : List String) (resultados : List Resultado) :
    List (String × Oportunidad × String) :=
  (recomendaciones orden_set resultados).map
    (fun e => (e.1, e.2, dificultad e.2.reviews_competidores))

/-- `orden_set` really enumerates the Python set
`set(r['ciudad'] for r in no_apariciones)`: no duplicates, and its
members are exactly the city names occurring among the non-appearing
results. -/
def validEnum (orden_set : List String) (resultados : List Resultado) : Prop :=
  orden_set.Nodup ∧
    (∀ c ∈ orden_set, c ∈ (no_apariciones resultados).map (fun r => r.ciudad)) ∧
    (∀ c ∈ (no_apariciones resultados).map (fun r => r.ciudad), c ∈ orden_set)

lemma radians_neg_sub (a b : ℝ) : radians (a - b) = -(radians (b - a)) := by
  unfold radians; ring

lemma sin_sq_neg_sub (a b : ℝ) :
    Real.sin (radians (a - b) / 2) * Real.sin (radians (a - b) / 2) =
      Real.sin (radians (b - a) / 2) * Real.sin (radians (b - a) / 2) := by
  rw [radians_neg_sub, neg_div, Real.sin_neg]; ring

lemma haversine_a_symm (lat1 lng1 lat2 lng2 : ℝ) :
    haversine_a lat1 lng1 lat2 lng2 = haversine_a lat2 lng2 lat1 lng1 := by
  unfold haversine_a
  rw [sin_sq_neg_sub lat2 lat1, sin_sq_neg_sub lng2 lng1]
  ring

lemma haversine_a_self (lat lng : ℝ) : haversine_a lat lng lat lng = 0 := by
  unfold haversine_a
  simp [radians]

/-- Claim C9: the distance computation is symmetric in its two coordinate
pairs, and the distance from a point to itself is zero. -/
theorem distancia_simetria_identidad :
    (∀ lat1 lng1 lat2 lng2 : ℝ,
        calcular_distancia lat1 lng1 lat2 lng2 = calcular_distancia lat2 lng2 lat1 lng1) ∧
      (∀ lat lng : ℝ, calcular_distancia lat lng lat lng = 0) := by
  constructor
  · intro lat1 lng1 lat2 lng2
    unfold calcular_distancia
    by_cases h : lat1 = 0 ∨ lng1 = 0 ∨ lat2 = 0 ∨ lng2 = 0
    · rw [if_pos h, if_pos (by tauto)]
    · rw [if_neg h, if_neg (by tauto), haversine_a_symm]
  · intro lat lng
    unfold calcular_distancia
    by_cases h : lat = 0 ∨ lng = 0 ∨ lat = 0 ∨ lng = 0
    · rw [if_pos h]
    · rw [if_neg h, haversine_a_self, Real.sqrt_zero]
      have h1 : (1:ℝ) - 0 = 1 := by ring
      rw [h1, Real.sqrt_one]
      unfold atan2
      rw [if_pos (by norm_num : (0:ℝ) < 1)]
      norm_num [Real.arctan_zero]

/-- Claim C10: whenever any one of the four coordinates is zero the
degenerate-input guard fires and the distance is 0, regardless of the
other coordinates. -/
theorem distancia_coordenada_cero :
    ∀ lat1 lng1 lat2 lng2 : ℝ, (lat1 = 0 ∨ lng1 = 0 ∨ lat2 = 0 ∨ lng2 = 0) →
      calcular_distancia lat1 lng1 lat2 lng2 = 0 := by
  intro lat1 lng1 lat2 lng2 h
  unfold calcular_distancia
  rw [if_pos h]

/-- Witness for C10 at a concrete equator-like input: latitude 0 with the
remaining coordinates nonzero still yields distance 0. -/
theorem distancia_coordenada_cero_testigo :
    ((0:ℝ) = 0 ∨ (5:ℝ) = 0 ∨ (34:ℝ) = 0 ∨ (7:ℝ) = 0) ∧
      calcular_distancia 0 5 34 7 = 0 :=
  ⟨Or.inl rfl, distancia_coordenada_cero 0 5 34 7 (Or.inl rfl)⟩

/-- Claim C8: the difficulty label is EASY exactly below 100 reviews,
MEDIUM exactly on [100, 200), HARD exactly from 200 on, with the exact
boundary values 99, 100, 199, 200. -/
theorem etiquetas_dificultad :
    ∀ n : ℤ, (dificultad n = ("EASY") ↔ n < 100) ∧
      (dificultad n = ("MEDIUM") ↔ 100 ≤ n ∧ n < 200) ∧
      (dificultad n = ("HARD") ↔ 200 ≤ n) ∧
      dificultad 99 = ("EASY") ∧ dificultad 100 = ("MEDIUM") ∧
      dificultad 199 = ("MEDIUM") ∧ dificultad 200 = ("HARD") := by
  intro n
  refine ⟨?_, ?_, ?_, by decide, by decide, by decide, by decide⟩ <;>
    unfold dificultad <;> split_ifs with h1 h2 <;> simp <;> omega

/-- Claim C1 (amended): on every successful analysis the emitted
`total_competidores` equals the total number of returned entities
(`len(places)`), not the size of the competitor-filtered subset. -/
theorem conteo_competidores_total (business_terms : List String) (base_lat base_lng : ℚ)
    (ciudad : Ciudad) (keyword tier : String) (h : HttpResponse) (db_ok : Bool)
    (hc : h.status_code = 200) (hs : h.status = ("OK")) :
    ∃ r, (analizar_ciudad business_terms base_lat base_lng ciudad keyword tier
        (some h) db_ok).1 = some r ∧
      r.total_competidores = h.results.length := by
  simp only [analizar_ciudad]
  rw [if_pos hc, if_pos hs]
  exact ⟨_, rfl, rfl⟩

/-- Witness for the amended C1 at a concrete successful response with one
returned entity. -/
theorem conteo_competidores_total_testigo :
    ((⟨200, ("OK"), [⟨("A Place"), some 4, some 7⟩]⟩ : HttpResponse).status_code = 200) ∧
      ((⟨200, ("OK"), [⟨("A Place"), some 4, some 7⟩]⟩ : HttpResponse).status = ("OK")) ∧
      ∃ r, (analizar_ciudad [("acme")] 1 1 (⟨("Lennox"), 2, 3, ("90304")⟩ : Ciudad)
          (("kw")) (("t")) (some ⟨200, ("OK"), [⟨("A Place"), some 4, some 7⟩]⟩) true).1 =
            some r ∧
        r.total_competidores =
          (⟨200, ("OK"), [⟨("A Place"), some 4, some 7⟩]⟩ : HttpResponse).results.length :=
  ⟨rfl, rfl,
    conteo_competidores_total [("acme")] 1 1 ⟨("Lennox"), 2, 3, ("90304")⟩ (("kw")) (("t"))
      ⟨200, ("OK"), [⟨("A Place"), some 4, some 7⟩]⟩ true rfl rfl⟩

/-- Counterexample to C1 as stated: with a single returned entity that IS
matched as the subject, the emitted count is 1 while the competitor set
is empty. -/
theorem conteo_competidores_contraejemplo :
    ∃ r, (analizar_ciudad [("acme")] 1 1 (⟨("Inglewood"), 2, 3, ("90301")⟩ : Ciudad)
        (("kw")) (("t")) (some ⟨200, ("OK"), [⟨("Acme Cleaning"), some 5, some 10⟩]⟩)
          true).1 = some r ∧
      r.total_competidores = 1 ∧
      (competidores_de [("acme")] [⟨("Acme Cleaning"), some 5, some 10⟩]).length = 0 :=
  ⟨_, rfl, rfl, rfl⟩

/-- Claim C7: a transport failure, a non-200 code or a non-OK body status
all return absent with no insert attempted; a successful analysis returns
the record and attempts exactly one insert; and the returned value does
not depend on whether the insert commits or rolls back. -/
theorem analizar_persistencia_contrato (business_terms : List String) (base_lat base_lng : ℚ)
    (ciudad : Ciudad) (keyword tier : String) :
    (∀ db_ok, analizar_ciudad business_terms base_lat base_lng ciudad keyword tier
        none db_ok = (none, [])) ∧
      (∀ (h : HttpResponse) (db_ok : Bool), h.status_code ≠ 200 →
        analizar_ciudad business_terms base_lat base_lng ciudad keyword tier
          (some h) db_ok = (none, [])) ∧
      (∀ (h : HttpResponse) (db_ok : Bool), h.status ≠ ("OK") →
        analizar_ciudad business_terms base_lat base_lng ciudad keyword tier
          (some h) db_ok = (none, [])) ∧
      (∀ (h : HttpResponse) (db_ok : Bool), h.status_code = 200 → h.status = ("OK") →
        ∃ r, analizar_ciudad business_terms base_lat base_lng ciudad keyword tier
          (some h) db_ok = (some r, [r])) ∧
      (∀ h : HttpResponse,
        (analizar_ciudad business_terms base_lat base_lng ciudad keyword tier
            (some h) true).1 =
          (analizar_ciudad business_terms base_lat base_lng ciudad keyword tier
            (some h) false).1) := by
  refine ⟨fun db_ok => rfl, ?_, ?_, ?_, ?_⟩
  · intro h db_ok hne
    simp only [analizar_ciudad]
    rw [if_neg hne]
  · intro h db_ok hne
    simp only [analizar_ciudad]
    by_cases hc : h.status_code = 200
    · rw [if_pos hc, if_neg hne]
    · rw [if_neg hc]
  · intro h db_ok hc hs
    simp only [analizar_ciudad]
    rw [if_pos hc, if_pos hs]
    exact ⟨_, rfl⟩
  · intro h
    by_cases hc : h.status_code = 200
    · by_cases hs : h.status = ("OK")
      · simp only [analizar_ciudad, if_pos hc, if_pos hs]
      · simp only [analizar_ciudad, if_pos hc, if_neg hs]
    · simp only [analizar_ciudad, if_neg hc]

/-- Witness for C7: a concrete failed call returns absent with an empty
insert trace, and a concrete successful call attempts exactly one
insert even when the insert rolls back. -/
theorem analizar_persistencia_testigo :
    analizar_ciudad [("acme")] 1 1 (⟨("Venice"), 2, 3, ("90291")⟩ : Ciudad) (("kw")) (("t"))
        none true = (none, []) ∧
      ∃ r, analizar_ciudad [("acme")] 1 1 (⟨("Venice"), 2, 3, ("90291")⟩ : Ciudad)
        (("kw")) (("t")) (some ⟨200, ("OK"), []⟩) false = (some r, [r]) :=
  ⟨(analizar_persistencia_contrato [("acme")] 1 1 ⟨("Venice"), 2, 3, ("90291")⟩
      (("kw")) (("t"))).1 true,
    (analizar_persistencia_contrato [("acme")] 1 1 ⟨("Venice"), 2, 3, ("90291")⟩
      (("kw")) (("t"))).2.2.2.1 ⟨200, ("OK"), []⟩ false rfl rfl⟩

lemma busca_desde_especificacion (business_terms : List String) :
    ∀ (l : List Place) (i n : ℕ),
      busca_desde business_terms l i = some n ↔
        ∃ j, n = i + j + 1 ∧
          (∃ p, l[j]? = some p ∧ es_tu_negocio business_terms p = true) ∧
          (∀ m q, m < j → l[m]? = some q → es_tu_negocio business_terms q = false) := by
  intro l
  induction l with
  | nil => intro i n; simp [busca_desde]
  | cons p ps ih =>
    intro i n
    simp only [busca_desde]
    by_cases hp : es_tu_negocio business_terms p = true
    · rw [if_pos hp]
      constructor
      · intro hsome
        injection hsome with hsome
        exact ⟨0, by omega, ⟨p, by simp, hp⟩, fun m q hm => absurd hm (Nat.not_lt_zero m)⟩
      · rintro ⟨j, hn, ⟨p', hget, hmatch⟩, hprev⟩
        cases j with
        | zero =>
          simp only [List.getElem?_cons_zero, Option.some.injEq] at hget
          subst hn
          rfl
        | succ j' =>
          have := hprev 0 p (Nat.succ_pos j') (by simp)
          rw [hp] at this
          exact absurd this (by simp)
    · have hp' : es_tu_negocio business_terms p = false := by
        cases hval : es_tu_negocio business_terms p
        · rfl
        · exact absurd hval hp
      rw [if_neg hp]
      rw [ih (i + 1) n]
      constructor
      · rintro ⟨j, hn, hg, hprev⟩
        refine ⟨j + 1, by omega, by simpa using hg, ?_⟩
        intro m q hm hq
        cases m with
        | zero =>
          simp only [List.getElem?_cons_zero, Option.some.injEq] at hq
          subst hq
          exact hp'
        | succ m' =>
          exact hprev m' q (by omega) (by simpa using hq)
      · rintro ⟨j, hn, ⟨p', hget, hmatch⟩, hprev⟩
        cases j with
        | zero =>
          simp only [List.getElem?_cons_zero, Option.some.injEq] at hget
          subst hget
          exact absurd hmatch (by simp [hp'])
        | succ j' =>
          refine ⟨j', by omega, ⟨p', by simpa using hget, hmatch⟩, ?_⟩
          intro m q hm hq
          exact hprev (m + 1) q (by omega) (by simpa using hq)

/-- Claim C4: on a successful analysis, `aparece` holds exactly when a
position is present, and a present position n means the entity at
0-based index n - 1 among the first 20 returned entities is the first
one matched as the subject. -/
theorem posicion_encontrado_invariante (business_terms : List String) (base_lat base_lng : ℚ)
    (ciudad : Ciudad) (keyword tier : String) (h : HttpResponse) (db_ok : Bool)
    (hc : h.status_code = 200) (hs : h.status = ("OK")) :
    ∃ r, (analizar_ciudad business_terms base_lat base_lng ciudad keyword tier
        (some h) db_ok).1 = some r ∧
      r.aparece = r.posicion.isSome ∧
      (∀ n : ℕ, r.posicion = some n ↔
        ∃ j, n = j + 1 ∧
          (∃ p, (h.results.take 20)[j]? = some p ∧ es_tu_negocio business_terms p = true) ∧
          (∀ m q, m < j → (h.results.take 20)[m]? = some q →
            es_tu_negocio business_terms q = false)) := by
  simp only [analizar_ciudad]
  rw [if_pos hc, if_pos hs]
  refine ⟨_, rfl, rfl, ?_⟩
  intro n
  have hspec := busca_desde_especificacion business_terms (h.results.take 20) 0 n
  simpa [buscar_tu_posicion] using hspec

/-- Witness for C4 at the spec test: the subject sits at 0-based index 2
of the returned list, so the characterization applies to the produced
record concretely. -/
theorem posicion_encontrado_testigo :
    ((⟨200, ("OK"), [⟨("First Co"), some 4, some 10⟩, ⟨("Second Co"), some 4, some 10⟩,
        ⟨("Acme Cleaning"), some 5, some 10⟩]⟩ : HttpResponse).status_code = 200) ∧
      ∃ r, (analizar_ciudad [("acme")] 1 1 (⟨("Hawthorne"), 2, 3, ("90250")⟩ : Ciudad)
          (("kw")) (("t"))
          (some ⟨200, ("OK"), [⟨("First Co"), some 4, some 10⟩, ⟨("Second Co"), some 4, some 10⟩,
            ⟨("Acme Cleaning"), some 5, some 10⟩]⟩) true).1 = some r ∧
        r.aparece = r.posicion.isSome ∧
        (∀ n : ℕ, r.posicion = some n ↔
          ∃ j, n = j + 1 ∧
            (∃ p, ((⟨200, ("OK"), [⟨("First Co"), some 4, some 10⟩,
                ⟨("Second Co"), some 4, some 10⟩, ⟨("Acme Cleaning"), some 5, some 10⟩]⟩ :
                  HttpResponse).results.take 20)[j]? = some p ∧
              es_tu_negocio [("acme")] p = true) ∧
            (∀ m q, m < j → ((⟨200, ("OK"), [⟨("First Co"), some 4, some 10⟩,
                ⟨("Second Co"), some 4, some 10⟩, ⟨("Acme Cleaning"), some 5, some 10⟩]⟩ :
                  HttpResponse).results.take 20)[m]? = some q →
              es_tu_negocio [("acme")] q = false)) :=
  ⟨rfl,
    posicion_encontrado_invariante [("acme")] 1 1 ⟨("Hawthorne"), 2, 3, ("90250")⟩
      (("kw")) (("t"))
      ⟨200, ("OK"), [⟨("First Co"), some 4, some 10⟩, ⟨("Second Co"), some 4, some 10⟩,
        ⟨("Acme Cleaning"), some 5, some 10⟩]⟩ true rfl rfl⟩

instance : Std.Antisymm (fun a b : ℚ => a ≤ b) :=
  ⟨fun hab hba => le_antisymm hab hba⟩

lemma max_q_choice : ∀ a b : ℚ, a ⊔ b = a ∨ a ⊔ b = b := by
  intro a b
  rcases le_total a b with hab | hba
  · right; exact sup_eq_right.mpr hab
  · left; exact sup_eq_left.mpr hba

lemma min_q_choice : ∀ a b : ℚ, a ⊓ b = a ∨ a ⊓ b = b := by
  intro a b
  rcases le_total a b with hab | hba
  · left; exact inf_eq_left.mpr hab
  · right; exact inf_eq_right.mpr hba

/-- Claim C5: with at least one appearing result the dominance report
holds the maximum and the minimum of the appearing distances and the
mean of the appearing positions; with none it is the defined
no-dominance state. -/
theorem mapa_dominio_extremos (resultados : List Resultado)
    (hpos : ∀ r ∈ apariciones resultados, r.posicion.isSome = true) :
    (apariciones resultados = [] → generar_mapa_dominio resultados = none) ∧
      (apariciones resultados ≠ [] →
        ∃ m, generar_mapa_dominio resultados = some m ∧
          m.distancia_max ∈ (apariciones resultados).map (fun r => r.distancia_km) ∧
          (∀ d ∈ (apariciones resultados).map (fun r => r.distancia_km),
            d ≤ m.distancia_max) ∧
          m.distancia_min ∈ (apariciones resultados).map (fun r => r.distancia_km) ∧
          (∀ d ∈ (apariciones resultados).map (fun r => r.distancia_km),
            m.distancia_min ≤ d) ∧
          m.posicion_promedio * ((apariciones resultados).length : ℚ) =
            ((apariciones resultados).map (fun r => ((r.posicion.getD 0 : ℕ) : ℚ))).sum) := by
  constructor
  · intro he
    unfold generar_mapa_dominio
    rw [if_pos he]
  · intro hne
    unfold generar_mapa_dominio
    rw [if_neg hne]
    have hmapne : (apariciones resultados).map (fun r => r.distancia_km) ≠ [] := by
      simpa using hne
    obtain ⟨a, ha⟩ : ∃ a, ((apariciones resultados).map (fun r => r.distancia_km)).max? = some a := by
      cases hm : ((apariciones resultados).map (fun r => r.distancia_km)).max? with
      | none => exact absurd (List.max?_eq_none_iff.mp hm) hmapne
      | some a => exact ⟨a, rfl⟩
    obtain ⟨b, hb⟩ : ∃ b, ((apariciones resultados).map (fun r => r.distancia_km)).min? = some b := by
      cases hm : ((apariciones resultados).map (fun r => r.distancia_km)).min? with
      | none => exact absurd (List.min?_eq_none_iff.mp hm) hmapne
      | some b => exact ⟨b, rfl⟩
    have hamem := (List.max?_eq_some_iff (fun q => le_refl q) max_q_choice
      (fun x y z => sup_le_iff)).mp ha
    have hbmem := (List.min?_eq_some_iff (fun q => le_refl q) min_q_choice
      (fun x y z => le_inf_iff)).mp hb
    refine ⟨_, rfl, ?_, ?_, ?_, ?_, ?_⟩
    · rw [ha]; exact hamem.1
    · rw [ha]; intro d hd; exact hamem.2 d hd
    · rw [hb]; exact hbmem.1
    · rw [hb]; intro d hd; exact hbmem.2 d hd
    · have hlen : ((apariciones resultados).length : ℚ) ≠ 0 := by
        have := List.length_pos.mpr hne
        exact_mod_cast Nat.pos_iff_ne_zero.mp this
      exact div_mul_cancel₀ _ hlen

/-- Witness for C5 at the spec example: appearances at distances 2, 4
and 9 with positions 1, 2 and 3. -/
theorem mapa_dominio_extremos_testigo :
    (∀ r ∈ apariciones
        [(⟨("a"), (""), ("t"), ("k"), true, some 1, 2, 0, 0, 3, 0, 0⟩ : Resultado),
         ⟨("b"), (""), ("t"), ("k"), true, some 2, 9, 0, 0, 3, 0, 0⟩,
         ⟨("c"), (""), ("t"), ("k"), true, some 3, 4, 0, 0, 3, 0, 0⟩],
      r.posicion.isSome = true) ∧
      (apariciones
        [(⟨("a"), (""), ("t"), ("k"), true, some 1, 2, 0, 0, 3, 0, 0⟩ : Resultado),
         ⟨("b"), (""), ("t"), ("k"), true, some 2, 9, 0, 0, 3, 0, 0⟩,
         ⟨("c"), (""), ("t"), ("k"), true, some 3, 4, 0, 0, 3, 0, 0⟩] ≠ []) ∧
      (∃ m, generar_mapa_dominio
          [(⟨("a"), (""), ("t"), ("k"), true, some 1, 2, 0, 0, 3, 0, 0⟩ : Resultado),
           ⟨("b"), (""), ("t"), ("k"), true, some 2, 9, 0, 0, 3, 0, 0⟩,
           ⟨("c"), (""), ("t"), ("k"), true, some 3, 4, 0, 0, 3, 0, 0⟩] = some m ∧
        m.distancia_max ∈ (apariciones
          [(⟨("a"), (""), ("t"), ("k"), true, some 1, 2, 0, 0, 3, 0, 0⟩ : Resultado),
           ⟨("b"), (""), ("t"), ("k"), true, some 2, 9, 0, 0, 3, 0, 0⟩,
           ⟨("c"), (""), ("t"), ("k"), true, some 3, 4, 0, 0, 3, 0, 0⟩]).map
            (fun r => r.distancia_km) ∧
        (∀ d ∈ (apariciones
          [(⟨("a"), (""), ("t"), ("k"), true, some 1, 2, 0, 0, 3, 0, 0⟩ : Resultado),
           ⟨("b"), (""), ("t"), ("k"), true, some 2, 9, 0, 0, 3, 0, 0⟩,
           ⟨("c"), (""), ("t"), ("k"), true, some 3, 4, 0, 0, 3, 0, 0⟩]).map
            (fun r => r.distancia_km), d ≤ m.distancia_max) ∧
        m.distancia_min ∈ (apariciones
          [(⟨("a"), (""), ("t"), ("k"), true, some 1, 2, 0, 0, 3, 0, 0⟩ : Resultado),
           ⟨("b"), (""), ("t"), ("k"), true, some 2, 9, 0, 0, 3, 0, 0⟩,
           ⟨("c"), (""), ("t"), ("k"), true, some 3, 4, 0, 0, 3, 0, 0⟩]).map
            (fun r => r.distancia_km) ∧
        (∀ d ∈ (apariciones
          [(⟨("a"), (""), ("t"), ("k"), true, some 1, 2, 0, 0, 3, 0, 0⟩ : Resultado),
           ⟨("b"), (""), ("t"), ("k"), true, some 2, 9, 0, 0, 3, 0, 0⟩,
           ⟨("c"), (""), ("t"), ("k"), true, some 3, 4, 0, 0, 3, 0, 0⟩]).map
            (fun r => r.distancia_km), m.distancia_min ≤ d) ∧
        m.posicion_promedio * ((apariciones
          [(⟨("a"), (""), ("t"), ("k"), true, some 1, 2, 0, 0, 3, 0, 0⟩ : Resultado),
           ⟨("b"), (""), ("t"), ("k"), true, some 2, 9, 0, 0, 3, 0, 0⟩,
           ⟨("c"), (""), ("t"), ("k"), true, some 3, 4, 0, 0, 3, 0, 0⟩]).length : ℚ) =
          ((apariciones
            [(⟨("a"), (""), ("t"), ("k"), true, some 1, 2, 0, 0, 3, 0, 0⟩ : Resultado),
             ⟨("b"), (""), ("t"), ("k"), true, some 2, 9, 0, 0, 3, 0, 0⟩,
             ⟨("c"), (""), ("t"), ("k"), true, some 3, 4, 0, 0, 3, 0, 0⟩]).map
              (fun r => ((r.posicion.getD 0 : ℕ) : ℚ))).sum) :=
  ⟨by decide, by decide,
    (mapa_dominio_extremos
      [⟨("a"), (""), ("t"), ("k"), true, some 1, 2, 0, 0, 3, 0, 0⟩,
       ⟨("b"), (""), ("t"), ("k"), true, some 2, 9, 0, 0, 3, 0, 0⟩,
       ⟨("c"), (""), ("t"), ("k"), true, some 3, 4, 0, 0, 3, 0, 0⟩]
      (by decide)).2 (by decide)⟩

lemma abs_redondeoEntero (q : ℚ) : |((redondeoEntero q : ℤ) : ℚ) - q| ≤ 1/2 := by
  have h1 : ((⌊q⌋ : ℤ) : ℚ) ≤ q := Int.floor_le q
  have h2 : q < ((⌊q⌋ : ℤ) : ℚ) + 1 := Int.lt_floor_add_one q
  unfold redondeoEntero
  split_ifs with ha hb hcc <;> rw [abs_le] <;> push_cast <;> constructor <;> linarith

lemma abs_round2Q (q : ℚ) : |round2Q q - q| ≤ 1/200 := by
  have h := abs_redondeoEntero (q * 100)
  unfold round2Q
  have heq : ((redondeoEntero (q * 100) : ℤ) : ℚ) / 100 - q =
      (((redondeoEntero (q * 100) : ℤ) : ℚ) - q * 100) / 100 := by ring
  rw [heq, abs_div, abs_of_pos (by norm_num : (0:ℚ) < 100)]
  linarith

lemma pyInt_nonneg (q : ℚ) (h : 0 ≤ q) : pyInt q = ⌊q⌋ := by
  unfold pyInt
  rw [if_pos h]

/-- The spec example competitor list: ratings 4 and 5, review counts 50
and 150. -/
def lugares_ejemplo : List Place :=
  [⟨("Comp A"), some 4, some 50⟩, ⟨("Comp B"), some 5, some 150⟩]

/-- Claim C6 (amended): the emitted rating average is the competitor
rating mean rounded to two decimals (so within 1/200 of the exact mean)
and the emitted review average is the floor of the review mean; both are
0 for an empty competitor set, and the spec example (ratings 4 and 5,
reviews 50 and 150) yields exactly 9/2 and 100. -/
theorem promedios_competidores_redondeados (business_terms : List String)
    (base_lat base_lng : ℚ) (ciudad : Ciudad) (keyword tier : String) (h : HttpResponse)
    (db_ok : Bool) (hc : h.status_code = 200) (hs : h.status = ("OK")) :
    ∃ r, (analizar_ciudad business_terms base_lat base_lng ciudad keyword tier
        (some h) db_ok).1 = some r ∧
      (competidores_de business_terms h.results = [] →
        r.rating_promedio = 0 ∧ r.reviews_promedio = 0) ∧
      (competidores_de business_terms h.results ≠ [] →
        |r.rating_promedio -
            ((competidores_de business_terms h.results).map (fun p => p.rating.getD 0)).sum /
              ((competidores_de business_terms h.results).length : ℚ)| ≤ 1/200 ∧
        r.reviews_promedio =
          ⌊((competidores_de business_terms h.results).map
              (fun p => ((p.user_ratings_total.getD 0 : ℕ) : ℚ))).sum /
            ((competidores_de business_terms h.results).length : ℚ)⌋) ∧
      (∃ rE, (analizar_ciudad [("negocio")] 1 1 (⟨("Gardena"), 2, 3, ("90247")⟩ : Ciudad)
          (("kw")) (("t")) (some ⟨200, ("OK"), lugares_ejemplo⟩) true).1 = some rE ∧
        rE.rating_promedio = 9/2 ∧ rE.reviews_promedio = 100) := by
  have hcompE : competidores_de [("negocio")] lugares_ejemplo = lugares_ejemplo := by decide
  simp only [analizar_ciudad]
  rw [if_pos hc, if_pos hs]
  simp only [if_true]
  refine ⟨_, rfl, ?_, ?_, ?_⟩
  · intro he
    dsimp only
    rw [if_pos he, if_pos he]
    constructor
    · norm_num [round2Q, redondeoEntero]
    · norm_num [pyInt]
  · intro hne
    dsimp only
    rw [if_neg hne, if_neg hne]
    refine ⟨abs_round2Q _, ?_⟩
    apply pyInt_nonneg
    apply div_nonneg
    · apply List.sum_nonneg
      intro x hx
      obtain ⟨p, hp, hpx⟩ := List.mem_map.mp hx
      rw [← hpx]
      exact Nat.cast_nonneg _
    · exact Nat.cast_nonneg _
  · refine ⟨_, rfl, ?_, ?_⟩
    · dsimp only
      rw [hcompE, if_neg (by decide : ¬(lugares_ejemplo = []))]
      norm_num [lugares_ejemplo, round2Q, redondeoEntero]
    · dsimp only
      rw [hcompE, if_neg (by decide : ¬(lugares_ejemplo = []))]
      norm_num [lugares_ejemplo, pyInt]

/-- Witness for the amended C6 at a concrete successful response with an
empty competitor list. -/
theorem promedios_competidores_testigo :
    ((⟨200, ("OK"), []⟩ : HttpResponse).status_code = 200) ∧
      ∃ r, (analizar_ciudad [("negocio")] 1 1 (⟨("Downey"), 2, 3, ("90241")⟩ : Ciudad)
          (("kw")) (("t")) (some ⟨200, ("OK"), []⟩) true).1 = some r ∧
        (competidores_de [("negocio")] (⟨200, ("OK"), []⟩ : HttpResponse).results = [] →
          r.rating_promedio = 0 ∧ r.reviews_promedio = 0) ∧
        (competidores_de [("negocio")] (⟨200, ("OK"), []⟩ : HttpResponse).results ≠ [] →
          |r.rating_promedio -
              ((competidores_de [("negocio")]
                  (⟨200, ("OK"), []⟩ : HttpResponse).results).map
                    (fun p => p.rating.getD 0)).sum /
                ((competidores_de [("negocio")]
                  (⟨200, ("OK"), []⟩ : HttpResponse).results).length : ℚ)| ≤ 1/200 ∧
          r.reviews_promedio =
            ⌊((competidores_de [("negocio")]
                (⟨200, ("OK"), []⟩ : HttpResponse).results).map
                  (fun p => ((p.user_ratings_total.getD 0 : ℕ) : ℚ))).sum /
              ((competidores_de [("negocio")]
                (⟨200, ("OK"), []⟩ : HttpResponse).results).length : ℚ)⌋) ∧
        (∃ rE, (analizar_ciudad [("negocio")] 1 1 (⟨("Gardena"), 2, 3, ("90247")⟩ : Ciudad)
            (("kw")) (("t")) (some ⟨200, ("OK"), lugares_ejemplo⟩) true).1 = some rE ∧
          rE.rating_promedio = 9/2 ∧ rE.reviews_promedio = 100) :=
  ⟨rfl,
    promedios_competidores_redondeados [("negocio")] 1 1 ⟨("Downey"), 2, 3, ("90241")⟩
      (("kw")) (("t")) ⟨200, ("OK"), []⟩ true rfl rfl⟩

/-- The counterexample competitor list for C6: review counts 0 and 1,
whose mean 1/2 is not an integer. -/
def lugares_contra : List Place :=
  [⟨("Otro A"), some 4, some 0⟩, ⟨("Otro B"), some 4, some 1⟩]

/-- Counterexample to C6 as stated: with competitor review counts 0 and 1
the emitted review average is 0 while the arithmetic mean is 1/2, so the
emitted field does not equal the mean. -/
theorem promedio_reviews_truncado_contraejemplo :
    ∃ r, (analizar_ciudad [("negocio")] 1 1 (⟨("Carson"), 2, 3, ("90745")⟩ : Ciudad)
        (("kw")) (("t")) (some ⟨200, ("OK"), lugares_contra⟩) true).1 = some r ∧
      r.reviews_promedio = 0 ∧
      competidores_de [("negocio")] lugares_contra = lugares_contra ∧
      ((lugares_contra.map (fun p => ((p.user_ratings_total.getD 0 : ℕ) : ℚ))).sum /
          (lugares_contra.length : ℚ) = 1/2) ∧
      ((0 : ℚ) ≠ 1/2) := by
  have hcomp : competidores_de [("negocio")] lugares_contra = lugares_contra := by decide
  simp only [analizar_ciudad]
  simp only [if_true]
  refine ⟨_, rfl, ?_, hcomp, ?_, by norm_num⟩
  · dsimp only
    rw [hcomp, if_neg (by decide : ¬(lugares_contra = []))]
    norm_num [lugares_contra, pyInt]
  · norm_num [lugares_contra]


lemma conteo_oportunidad (resultados : List Resultado) (c : String) :
    ∀ (orden_set : List String), orden_set.Nodup →
      (ciudades_oportunidad orden_set resultados).countP (fun e => e.1 == c) =
        if c ∈ orden_set ∧ (∃ r ∈ no_apariciones resultados, r.ciudad = c) then 1 else 0 := by
  intro orden_set
  induction orden_set with
  | nil => intro _; simp [ciudades_oportunidad]
  | cons c' rest ih =>
    intro hnd
    obtain ⟨hc', hndr⟩ := List.nodup_cons.mp hnd
    have ihv := ih hndr
    simp only [ciudades_oportunidad] at ihv ⊢
    cases hf : (no_apariciones resultados).find? (fun r => r.ciudad == c') with
    | none =>
      have hnone := List.find?_eq_none.mp hf
      simp only [List.filterMap_cons, hf, Option.map_none']
      rw [ihv]
      by_cases hcc : c = c'
      · subst hcc
        have hnor : ¬ ∃ r ∈ no_apariciones resultados, r.ciudad = c := by
          rintro ⟨r, hr, hrc⟩
          exact hnone r hr (by simp [hrc])
        rw [if_neg (fun hcon => hnor hcon.2), if_neg (fun hcon => hnor hcon.2)]
      · have hmem : (c ∈ c' :: rest) ↔ (c ∈ rest) := by
          simp [List.mem_cons, hcc]
        by_cases hrest : c ∈ rest ∧ ∃ r ∈ no_apariciones resultados, r.ciudad = c
        · rw [if_pos hrest, if_pos ⟨hmem.mpr hrest.1, hrest.2⟩]
        · rw [if_neg hrest, if_neg (by rw [hmem]; exact hrest)]
    | some r0 =>
      have hr0mem := List.mem_of_find?_eq_some hf
      have hr0p := List.find?_some hf
      have hr0c : r0.ciudad = c' := by simpa using hr0p
      simp only [List.filterMap_cons, hf, Option.map_some']
      rw [List.countP_cons, ihv]
      by_cases hcc : c = c'
      · subst hcc
        have hpc : ((c, mkOportunidad r0).1 == c) = true := by simp
        rw [if_pos hpc]
        rw [if_neg (by tauto : ¬ (c ∈ rest ∧ ∃ r ∈ no_apariciones resultados, r.ciudad = c))]
        rw [if_pos ⟨List.mem_cons_self c rest, ⟨r0, hr0mem, hr0c⟩⟩]
      · have hpc : ¬ (((c', mkOportunidad r0).1 == c) = true) := by simp [Ne.symm hcc]
        rw [if_neg hpc]
        have hmem : (c ∈ c' :: rest) ↔ (c ∈ rest) := by simp [List.mem_cons, hcc]
        by_cases hrest : c ∈ rest ∧ ∃ r ∈ no_apariciones resultados, r.ciudad = c
        · rw [if_pos hrest, if_pos ⟨hmem.mpr hrest.1, hrest.2⟩]
        · rw [if_neg hrest, if_neg (by rw [hmem]; exact hrest)]

lemma mem_insertar (x a : String × Oportunidad) :
    ∀ l, a ∈ insertar x l ↔ a = x ∨ a ∈ l := by
  intro l
  induction l with
  | nil => simp [insertar]
  | cons y ys ih =>
    by_cases hlt : y.2.distancia < x.2.distancia
    · simp only [insertar, if_pos hlt, List.mem_cons, ih]
      tauto
    · simp only [insertar, if_neg hlt, List.mem_cons]

lemma pairwise_insertar (x : String × Oportunidad) :
    ∀ l, l.Pairwise (fun u v => u.2.distancia ≤ v.2.distancia) →
      (insertar x l).Pairwise (fun u v => u.2.distancia ≤ v.2.distancia) := by
  intro l
  induction l with
  | nil => intro _; simp [insertar]
  | cons y ys ih =>
    intro hp
    rw [List.pairwise_cons] at hp
    obtain ⟨hy, hys⟩ := hp
    by_cases hlt : y.2.distancia < x.2.distancia
    · simp only [insertar, if_pos hlt]
      rw [List.pairwise_cons]
      refine ⟨?_, ih hys⟩
      intro a ha
      rcases (mem_insertar x a ys).mp ha with rfl | hmem
      · exact le_of_lt hlt
      · exact hy a hmem
    · simp only [insertar, if_neg hlt]
      rw [List.pairwise_cons]
      refine ⟨?_, List.pairwise_cons.mpr ⟨hy, hys⟩⟩
      intro a ha
      rcases List.mem_cons.mp ha with rfl | hmem
      · exact le_of_not_lt hlt
      · exact le_trans (le_of_not_lt hlt) (hy a hmem)

lemma perm_insertar (x : String × Oportunidad) :
    ∀ l, (insertar x l).Perm (x :: l) := by
  intro l
  induction l with
  | nil => simp [insertar]
  | cons y ys ih =>
    by_cases hlt : y.2.distancia < x.2.distancia
    · simp only [insertar, if_pos hlt]
      exact (ih.cons y).trans (List.Perm.swap x y ys)
    · simp only [insertar, if_neg hlt]
      exact List.Perm.refl _

lemma ordenar_pairwise :
    ∀ l, (ordenar l).Pairwise (fun u v => u.2.distancia ≤ v.2.distancia) := by
  intro l
  induction l with
  | nil => simp [ordenar]
  | cons x xs ih => exact pairwise_insertar x (ordenar xs) ih

lemma ordenar_perm : ∀ l, (ordenar l).Perm l := by
  intro l
  induction l with
  | nil => simp [ordenar]
  | cons x xs ih => exact (perm_insertar x (ordenar xs)).trans (ih.cons x)

lemma filter_insertar (d : ℚ) (x : String × Oportunidad) :
    ∀ l, (insertar x l).filter (fun e => decide (e.2.distancia = d)) =
      if x.2.distancia = d then
        x :: l.filter (fun e => decide (e.2.distancia = d))
      else l.filter (fun e => decide (e.2.distancia = d)) := by
  intro l
  induction l with
  | nil =>
    by_cases hx : x.2.distancia = d
    · simp [insertar, List.filter, hx]
    · simp [insertar, List.filter, hx]
  | cons y ys ih =>
    by_cases hlt : y.2.distancia < x.2.distancia
    · simp only [insertar, if_pos hlt]
      by_cases hx : x.2.distancia = d
      · have hy : ¬ y.2.distancia = d := by
          intro hy
          rw [hy, hx] at hlt
          exact lt_irrefl d hlt
        simp [List.filter_cons, hy, hx, ih]
      · simp [List.filter_cons, ih, hx]
    · simp only [insertar, if_neg hlt]
      by_cases hx : x.2.distancia = d <;> simp [List.filter_cons, hx]

lemma filter_ordenar (d : ℚ) :
    ∀ l, (ordenar l).filter (fun e => decide (e.2.distancia = d)) =
      l.filter (fun e => decide (e.2.distancia = d)) := by
  intro l
  induction l with
  | nil => simp [ordenar]
  | cons x xs ih =>
    simp only [ordenar]
    rw [filter_insertar]
    by_cases hx : x.2.distancia = d
    · simp [List.filter_cons, hx, ih]
    · simp [List.filter_cons, hx, ih]


/-- Claim C2 (amended): one ExpansionCandidate is produced for each
distinct location having at least one non-present result (even when the
same location also has present results), and none for a location with no
non-present result. -/
theorem oportunidades_por_ciudad (resultados : List Resultado) (orden_set : List String)
    (hv : validEnum orden_set resultados) (c : String) :
    ((∃ r ∈ no_apariciones resultados, r.ciudad = c) →
        (ciudades_oportunidad orden_set resultados).countP (fun e => e.1 == c) = 1) ∧
      ((¬ ∃ r ∈ no_apariciones resultados, r.ciudad = c) →
        (ciudades_oportunidad orden_set resultados).countP (fun e => e.1 == c) = 0) := by
  obtain ⟨hnd, hsub, hsup⟩ := hv
  constructor
  · intro hex
    rw [conteo_oportunidad resultados c orden_set hnd]
    have hcm : c ∈ orden_set := by
      apply hsup
      obtain ⟨r, hr, hrc⟩ := hex
      exact List.mem_map.mpr ⟨r, hr, hrc⟩
    rw [if_pos ⟨hcm, hex⟩]
  · intro hnex
    rw [conteo_oportunidad resultados c orden_set hnd]
    rw [if_neg (fun hcon => hnex hcon.2)]

/-- Witness for the amended C2 at a single fully absent location. -/
theorem oportunidades_por_ciudad_testigo :
    validEnum [("X")]
        [(⟨("X"), (""), ("t"), ("k"), false, none, 5, 0, 0, 2, 4, 120⟩ : Resultado)] ∧
      ((∃ r ∈ no_apariciones
          [(⟨("X"), (""), ("t"), ("k"), false, none, 5, 0, 0, 2, 4, 120⟩ : Resultado)],
          r.ciudad = ("X")) →
        (ciudades_oportunidad [("X")]
          [(⟨("X"), (""), ("t"), ("k"), false, none, 5, 0, 0, 2, 4, 120⟩ : Resultado)]).countP
            (fun e => e.1 == ("X")) = 1) ∧
      ((¬ ∃ r ∈ no_apariciones
          [(⟨("X"), (""), ("t"), ("k"), false, none, 5, 0, 0, 2, 4, 120⟩ : Resultado)],
          r.ciudad = ("X")) →
        (ciudades_oportunidad [("X")]
          [(⟨("X"), (""), ("t"), ("k"), false, none, 5, 0, 0, 2, 4, 120⟩ : Resultado)]).countP
            (fun e => e.1 == ("X")) = 0) :=
  ⟨⟨by decide, by decide, by decide⟩,
    oportunidades_por_ciudad
      [⟨("X"), (""), ("t"), ("k"), false, none, 5, 0, 0, 2, 4, 120⟩] [("X")]
      ⟨by decide, by decide, by decide⟩ (("X"))⟩

/-- Counterexample to C2 as stated: the location X has one present
result, yet the code still produces a candidate for X because another of
its keyword results is non-present. -/
theorem oportunidad_ciudad_mixta_contraejemplo :
    validEnum [("X")]
        [(⟨("X"), (""), ("t"), ("k1"), true, some 1, 5, 0, 0, 3, 4, 120⟩ : Resultado),
         ⟨("X"), (""), ("t"), ("k2"), false, none, 5, 0, 0, 3, 4, 120⟩] ∧
      (⟨("X"), (""), ("t"), ("k1"), true, some 1, 5, 0, 0, 3, 4, 120⟩ : Resultado).aparece =
        true ∧
      (⟨("X"), (""), ("t"), ("k1"), true, some 1, 5, 0, 0, 3, 4, 120⟩ : Resultado).ciudad =
        ("X") ∧
      ciudades_oportunidad [("X")]
          [(⟨("X"), (""), ("t"), ("k1"), true, some 1, 5, 0, 0, 3, 4, 120⟩ : Resultado),
           ⟨("X"), (""), ("t"), ("k2"), false, none, 5, 0, 0, 3, 4, 120⟩] =
        [(("X"),
          mkOportunidad ⟨("X"), (""), ("t"), ("k2"), false, none, 5, 0, 0, 3, 4, 120⟩)] :=
  ⟨⟨by decide, by decide, by decide⟩, by decide, by decide, by decide⟩

/-- Claim C3 (amended): every emitted candidate is built from the first
non-present result of its location in input order; the output is sorted
ascending by distance as a permutation of the candidate set; ties keep
the order of the set enumeration (not the input order); and the report
is the first 10 entries of the sorted sequence. -/
theorem ranking_expansion (resultados : List Resultado) (orden_set : List String)
    (hv : validEnum orden_set resultados) :
    (∀ e ∈ ciudades_oportunidad orden_set resultados,
        ∃ r pre post, e.2 = mkOportunidad r ∧ r.ciudad = e.1 ∧
          no_apariciones resultados = pre ++ r :: post ∧
          (∀ x ∈ pre, x.ciudad ≠ e.1)) ∧
      (ciudades_ordenadas orden_set resultados).Pairwise
        (fun u v => u.2.distancia ≤ v.2.distancia) ∧
      (ciudades_ordenadas orden_set resultados).Perm
        (ciudades_oportunidad orden_set resultados) ∧
      (∀ d : ℚ, (ciudades_ordenadas orden_set resultados).filter
          (fun e => decide (e.2.distancia = d)) =
        (ciudades_oportunidad orden_set resultados).filter
          (fun e => decide (e.2.distancia = d))) ∧
      recomendaciones orden_set resultados =
        (ciudades_ordenadas orden_set resultados).take 10 ∧
      (recomendaciones orden_set resultados).length ≤ 10 ∧
      (recomendaciones orden_set resultados).Pairwise
        (fun u v => u.2.distancia ≤ v.2.distancia) := by
  refine ⟨?_, ordenar_pairwise _, ordenar_perm _, fun d => filter_ordenar d _, rfl, ?_, ?_⟩
  · intro e he
    obtain ⟨c, hcmem, hfc⟩ := List.mem_filterMap.mp he
    cases hf : (no_apariciones resultados).find? (fun r => r.ciudad == c) with
    | none =>
      rw [hf] at hfc
      simp at hfc
    | some r =>
      rw [hf, Option.map_some'] at hfc
      injection hfc with hfc
      obtain ⟨hp, pre, post, hsplit, hpre⟩ := List.find?_eq_some.mp hf
      subst hfc
      refine ⟨r, pre, post, rfl, by simpa using hp, hsplit, ?_⟩
      intro x hx
      have hxp := hpre x hx
      simp only [Bool.not_eq_eq_eq_not, Bool.not_true, beq_eq_false_iff_ne] at hxp
      exact hxp
  · have : (ciudades_ordenadas orden_set resultados).take 10 =
        recomendaciones orden_set resultados := rfl
    rw [← this]
    simp [List.length_take]
  · exact List.Pairwise.sublist (List.take_sublist _ _) (ordenar_pairwise _)

/-- Witness for the amended C3 at a single fully absent location. -/
theorem ranking_expansion_testigo :
    validEnum [("X")]
        [(⟨("X"), (""), ("t"), ("k"), false, none, 5, 0, 0, 2, 4, 120⟩ : Resultado)] ∧
      (∀ e ∈ ciudades_oportunidad [("X")]
          [(⟨("X"), (""), ("t"), ("k"), false, none, 5, 0, 0, 2, 4, 120⟩ : Resultado)],
        ∃ r pre post, e.2 = mkOportunidad r ∧ r.ciudad = e.1 ∧
          no_apariciones
              [(⟨("X"), (""), ("t"), ("k"), false, none, 5, 0, 0, 2, 4, 120⟩ : Resultado)] =
            pre ++ r :: post ∧
          (∀ x ∈ pre, x.ciudad ≠ e.1)) ∧
      (ciudades_ordenadas [("X")]
        [(⟨("X"), (""), ("t"), ("k"), false, none, 5, 0, 0, 2, 4, 120⟩ : Resultado)]).Pairwise
          (fun u v => u.2.distancia ≤ v.2.distancia) ∧
      (ciudades_ordenadas [("X")]
        [(⟨("X"), (""), ("t"), ("k"), false, none, 5, 0, 0, 2, 4, 120⟩ : Resultado)]).Perm
          (ciudades_oportunidad [("X")]
            [(⟨("X"), (""), ("t"), ("k"), false, none, 5, 0, 0, 2, 4, 120⟩ : Resultado)]) ∧
      (∀ d : ℚ, (ciudades_ordenadas [("X")]
          [(⟨("X"), (""), ("t"), ("k"), false, none, 5, 0, 0, 2, 4, 120⟩ : Resultado)]).filter
            (fun e => decide (e.2.distancia = d)) =
        (ciudades_oportunidad [("X")]
          [(⟨("X"), (""), ("t"), ("k"), false, none, 5, 0, 0, 2, 4, 120⟩ : Resultado)]).filter
            (fun e => decide (e.2.distancia = d))) ∧
      recomendaciones [("X")]
          [(⟨("X"), (""), ("t"), ("k"), false, none, 5, 0, 0, 2, 4, 120⟩ : Resultado)] =
        (ciudades_ordenadas [("X")]
          [(⟨("X"), (""), ("t"), ("k"), false, none, 5, 0, 0, 2, 4, 120⟩ : Resultado)]).take 10 ∧
      (recomendaciones [("X")]
        [(⟨("X"), (""), ("t"), ("k"), false, none, 5, 0, 0, 2, 4, 120⟩ : Resultado)]).length ≤
          10 ∧
      (recomendaciones [("X")]
        [(⟨("X"), (""), ("t"), ("k"), false, none, 5, 0, 0, 2, 4, 120⟩ : Resultado)]).Pairwise
          (fun u v => u.2.distancia ≤ v.2.distancia) :=
  ⟨⟨by decide, by decide, by decide⟩,
    ranking_expansion
      [⟨("X"), (""), ("t"), ("k"), false, none, 5, 0, 0, 2, 4, 120⟩] [("X")]
      ⟨by decide, by decide, by decide⟩⟩

/-- Counterexample to C3 as stated: two absent locations A and B at equal
distances, given in input order A then B; under the admissible set
enumeration B, A the code reports B before A, not the input order. -/
theorem ranking_desempate_contraejemplo :
    validEnum [("B"), ("A")]
        [(⟨("A"), (""), ("t"), ("k"), false, none, 5, 0, 0, 3, 4, 120⟩ : Resultado),
         ⟨("B"), (""), ("t"), ("k"), false, none, 5, 0, 0, 3, 4, 120⟩] ∧
      (⟨("A"), (""), ("t"), ("k"), false, none, 5, 0, 0, 3, 4, 120⟩ : Resultado).distancia_km =
        (⟨("B"), (""), ("t"), ("k"), false, none, 5, 0, 0, 3, 4, 120⟩ : Resultado).distancia_km ∧
      recomendaciones [("B"), ("A")]
          [(⟨("A"), (""), ("t"), ("k"), false, none, 5, 0, 0, 3, 4, 120⟩ : Resultado),
           ⟨("B"), (""), ("t"), ("k"), false, none, 5, 0, 0, 3, 4, 120⟩] =
        [(("B"), mkOportunidad ⟨("B"), (""), ("t"), ("k"), false, none, 5, 0, 0, 3, 4, 120⟩),
         (("A"), mkOportunidad ⟨("A"), (""), ("t"), ("k"), false, none, 5, 0, 0, 3, 4, 120⟩)] ∧
      recomendaciones [("B"), ("A")]
          [(⟨("A"), (""), ("t"), ("k"), false, none, 5, 0, 0, 3, 4, 120⟩ : Resultado),
           ⟨("B"), (""), ("t"), ("k"), false, none, 5, 0, 0, 3, 4, 120⟩] ≠
        [(("A"), mkOportunidad ⟨("A"), (""), ("t"), ("k"), false, none, 5, 0, 0, 3, 4, 120⟩),
         (("B"), mkOportunidad ⟨("B"), (""), ("t"), ("k"), false, none, 5, 0, 0, 3, 4, 120⟩)] :=
  ⟨⟨by decide, by decide, by decide⟩, by decide, by decide, by decide⟩

end GeoSEO
